import Mathlib

/-!
# Verification of the `process_leowasp.py` orchestration pipeline

A shallow embedding of the nightly reduction / aperture-photometry
orchestrator in `src/process_leowasp.py`.  All numeric quantities of the
script (shifts, coordinates, radii, times) are modelled as exact rationals
`ℚ`; filenames and header keywords are `String`s; the external
collaborators from the `jastro` / `donuts` libraries are an environment of
abstract functions.  The per-frame loop is embedded as a recursion over
the filtered image list that threads the only mutable state (existence of
the `failed_donuts` quarantine directory) and records, per frame, the
arguments of every external call the orchestrator makes.
-/

namespace ProcessLeowasp

/-- Round-half-to-even on a rational, the semantics of Python's `round`
applied to an exactly representable value. -/
def roundHalfEven (q : ℚ) : ℤ :=
  if q - ⌊q⌋ < 1/2 then ⌊q⌋
  else if 1/2 < q - ⌊q⌋ then ⌊q⌋ + 1
  else if ⌊q⌋ % 2 = 0 then ⌊q⌋ else ⌊q⌋ + 1

/-- `round(q, 2)` of the script: rounding to 2 decimal places
(lines 139-140, `sx = round(shift.x.value, 2)`). -/
def round2 (q : ℚ) : ℚ :=
  (roundHalfEven (q * 100) : ℚ) / 100

/-- A 2-d alignment shift as returned by `Donuts.measure_shift`. -/
structure Shift where
  x : ℚ
  y : ℚ
deriving DecidableEq, Inhabited

/-- Corrected pixel data (abstract model of a numpy array). -/
abbrev Data := List ℚ

/-- A master calibration frame (abstract model). -/
abbrev Master := List ℚ

/-- The observatory `EarthLocation` built at line 72 from instrument
config `olat` / `olon` / `elev`. -/
structure Location where
  lat : ℚ
  lon : ℚ
  elev : ℚ
deriving DecidableEq, Inhabited

/-- The parallel arrays returned by `j.ds9.read_region_file`
(aperture centres and sky-annulus radii, line 77). -/
structure Region where
  x : List ℚ
  y : List ℚ
  rsi : List ℚ
  rso : List ℚ
deriving DecidableEq, Inhabited

/-- The object returned by `j.housekeeping.get_image_list`; the
orchestrator only calls `files_filtered(imagetyp, filter)` on it
(line 122). -/
structure ImageList where
  files_filtered : String → String → List String

/-- The night configuration mapping (first CLI argument), restricted to
the keys the script reads. -/
structure NightConfig where
  ds9 : Bool
  region_file : String
  defocused : Bool
  reference_image : String
  max_sep_shift : ℚ
  filter : String
  master_dark_filename : String
  master_flat_filename : String
  max_donuts_shift : ℚ
  aperture_radii : List ℚ
deriving Inhabited

/-- The instrument configuration mapping (second CLI argument),
restricted to the keys the script reads. -/
structure InstConfig where
  ds9_window_id : String
  index_offset : ℤ
  olat : ℚ
  olon : ℚ
  elev : ℚ
  background_sigma : ℚ
  overscan_keyword : String
  dark_keyword : String
  exptime_keyword : String
  flat_keyword : String
  image_keyword : String
  ra_keyword : String
  dec_keyword : String
  dateobs_start_keyword : String
deriving Inhabited

/-- The external collaborators of the orchestrator, plus the initial
filesystem fact the script consults (`os.path.exists('failed_donuts')`).
Argument orderings follow the call sites in the script:
* `source_extract ref sigma rsi rso` returns the (source x, source y)
  components that the script destructures at line 80;
* `recenter_stars x y source_x source_y max_sep` (line 83);
* `make_master_dark_osc images overscan_kw dark_kw exptime_kw out_name`
  returns `(master_dark?, dark_exp)` (line 101);
* `make_master_flat_osc images filt overscan_kw master_dark? dark_exp
  flat_kw exptime_kw out_name` (line 111);
* `measure_shift reference filename` models the `Donuts` handle seeded
  with the reference image (lines 87, 138);
* `correct_data_osc filename filt location master_dark? overscan_kw
  master_flat? dark_exp exptime_kw ra_kw dec_kw dateobs_kw` returns
  `(data, jd, bjd, hjd)` (line 128). -/
structure Env where
  read_region_file : String → Region
  source_extract : String → ℚ → List ℚ → List ℚ → List ℚ × List ℚ
  recenter_stars : List ℚ → List ℚ → List ℚ → List ℚ → ℚ → List ℚ × List ℚ
  get_image_list : ImageList
  make_master_dark_osc : ImageList → String → String → String → String → Option Master × ℚ
  make_master_flat_osc :
    ImageList → String → String → Option Master → ℚ → String → String → String → Option Master
  measure_shift : String → String → Shift
  correct_data_osc :
    String → String → Location → Option Master → String → Option Master → ℚ →
      String → String → String → String → Data × ℚ × ℚ × ℚ
  failed_donuts_exists : Bool

/-- The arguments the orchestrator passes to `j.reduce.correct_data_osc`
for one frame (line 128). -/
structure CorrectCall where
  filename : String
  filter : String
  location : Location
  master_dark : Option Master
  master_flat : Option Master
  dark_exp : ℚ
deriving DecidableEq, Inhabited

/-- The arguments the orchestrator passes to `j.photometry.phot` for one
accepted frame (line 153). -/
structure PhotCall where
  data : Data
  shift : Shift
  x : List ℚ
  y : List ℚ
  rsi : List ℚ
  rso : List ℚ
  aperture_radii : List ℚ
  filename : String
  jd : ℚ
  bjd : ℚ
  hjd : ℚ
  ds9_name : Option String
  gain : ℚ
  draw_regions : Bool
  index_offset : ℤ
deriving DecidableEq, Inhabited

/-- The record of one iteration of the per-frame loop (lines 122-158). -/
structure FrameResult where
  filename : String
  displayed : Bool
  correctCall : CorrectCall
  shift : Shift
  accepted : Bool
  mkdirCalled : Bool
  movedToQuarantine : Bool
  photCall : Option PhotCall
deriving DecidableEq, Inhabited

/-- Everything the main block computes: the startup decisions, the
aperture set after optional recentering, the master frames, and the
per-frame records of the loop. -/
structure RunResult where
  ds9_window_id : Option String
  draw_regions : Bool
  ap_x : List ℚ
  ap_y : List ℚ
  ap_rsi : List ℚ
  ap_rso : List ℚ
  master_dark : Option Master
  dark_exp : ℚ
  master_flat : Option Master
  dark_displayed : Bool
  flat_displayed : Bool
  frames : List FrameResult
deriving Inhabited

/-- The loop-invariant context of the per-frame loop: everything fixed
before line 122. -/
structure LoopCtx where
  env : Env
  nc : NightConfig
  ic : InstConfig
  location : Location
  ds9_window_id : Option String
  draw_regions : Bool
  master_dark : Option Master
  dark_exp : ℚ
  master_flat : Option Master
  x : List ℚ
  y : List ℚ
  rsi : List ℚ
  rso : List ℚ

/-- One iteration of the loop body (lines 122-158) for `filename`, given
whether the `failed_donuts` directory currently exists; returns the frame
record and the updated directory state.  The quality gate is lines
139-143: the shift components are rounded to 2 decimals, and the frame is
rejected iff at least one rounded absolute component strictly exceeds
`max_donuts_shift`; a rejected frame is moved into `failed_donuts`
(created first when absent) and the loop continues; an accepted frame is
passed to `phot` with the unrounded shift, the fixed apertures, and the
hardcoded `gain=0.4`. -/
def processFrame (ctx : LoopCtx) (failedDir : Bool) (filename : String) :
    FrameResult × Bool :=
  let corr := ctx.env.correct_data_osc filename ctx.nc.filter ctx.location
    ctx.master_dark ctx.ic.overscan_keyword ctx.master_flat ctx.dark_exp
    ctx.ic.exptime_keyword ctx.ic.ra_keyword ctx.ic.dec_keyword
    ctx.ic.dateobs_start_keyword
  let cc : CorrectCall :=
    { filename := filename, filter := ctx.nc.filter, location := ctx.location,
      master_dark := ctx.master_dark, master_flat := ctx.master_flat,
      dark_exp := ctx.dark_exp }
  let shift := ctx.env.measure_shift ctx.nc.reference_image filename
  let sx := round2 shift.x
  let sy := round2 shift.y
  let exceed : ℕ :=
    (if ctx.nc.max_donuts_shift < |sx| then 1 else 0) +
      (if ctx.nc.max_donuts_shift < |sy| then 1 else 0)
  if 0 < exceed then
    ({ filename := filename, displayed := ctx.nc.ds9, correctCall := cc,
       shift := shift, accepted := false, mkdirCalled := !failedDir,
       movedToQuarantine := true, photCall := none }, true)
  else
    ({ filename := filename, displayed := ctx.nc.ds9, correctCall := cc,
       shift := shift, accepted := true, mkdirCalled := false,
       movedToQuarantine := false,
       photCall := some
         { data := corr.1, shift := shift, x := ctx.x, y := ctx.y,
           rsi := ctx.rsi, rso := ctx.rso,
           aperture_radii := ctx.nc.aperture_radii, filename := filename,
           jd := corr.2.1, bjd := corr.2.2.1, hjd := corr.2.2.2,
           ds9_name := ctx.ds9_window_id, gain := 2/5,
           draw_regions := ctx.draw_regions,
           index_offset := ctx.ic.index_offset } }, failedDir)

/-- The whole per-frame loop, threading the quarantine-directory state. -/
def processFrames (ctx : LoopCtx) : Bool → List String → List FrameResult
  | _, [] => []
  | failedDir, f :: fs =>
    let r := processFrame ctx failedDir f
    r.1 :: processFrames ctx r.2 fs

/-- The `j.ds9.read_region_file` call of line 77. -/
def mainRegion (env : Env) (nc : NightConfig) : Region :=
  env.read_region_file nc.region_file

/-- The aperture positions after the optional recentering of lines 78-84:
when the night is not defocused, `source_extract` runs on the reference
image and `recenter_stars` replaces the loaded positions; when it is
defocused, the manually placed positions are kept. -/
def mainApXY (env : Env) (nc : NightConfig) (ic : InstConfig) : List ℚ × List ℚ :=
  if !nc.defocused then
    let se := env.source_extract nc.reference_image ic.background_sigma
      (mainRegion env nc).rsi (mainRegion env nc).rso
    env.recenter_stars (mainRegion env nc).x (mainRegion env nc).y se.1 se.2
      nc.max_sep_shift
  else
    ((mainRegion env nc).x, (mainRegion env nc).y)

/-- The `make_master_dark_osc` call of line 101, returning the optional
master dark and the dark exposure time. -/
def mainDark (env : Env) (nc : NightConfig) (ic : InstConfig) : Option Master × ℚ :=
  env.make_master_dark_osc env.get_image_list ic.overscan_keyword
    ic.dark_keyword ic.exptime_keyword nc.master_dark_filename

/-- The `make_master_flat_osc` call of line 111; note that it receives
the (possibly absent) master dark and the dark exposure unchanged. -/
def mainFlat (env : Env) (nc : NightConfig) (ic : InstConfig) : Option Master :=
  env.make_master_flat_osc env.get_image_list nc.filter ic.overscan_keyword
    (mainDark env nc ic).1 (mainDark env nc ic).2 ic.flat_keyword
    ic.exptime_keyword nc.master_flat_filename

/-- The observatory `EarthLocation` of line 72. -/
def mainLocation (ic : InstConfig) : Location :=
  { lat := ic.olat, lon := ic.olon, elev := ic.elev }

/-- The fixed context of the per-frame loop as set up by lines 54-122. -/
def mainCtx (env : Env) (nc : NightConfig) (ic : InstConfig) : LoopCtx :=
  { env := env, nc := nc, ic := ic, location := mainLocation ic,
    ds9_window_id := if nc.ds9 then some ic.ds9_window_id else none,
    draw_regions := nc.ds9,
    master_dark := (mainDark env nc ic).1, dark_exp := (mainDark env nc ic).2,
    master_flat := mainFlat env nc ic,
    x := (mainApXY env nc ic).1, y := (mainApXY env nc ic).2,
    rsi := (mainRegion env nc).rsi, rso := (mainRegion env nc).rso }

/-- The filtered image list of line 122 that the loop iterates over. -/
def mainFiles (env : Env) (nc : NightConfig) (ic : InstConfig) : List String :=
  env.get_image_list.files_filtered ic.image_keyword nc.filter

/-- The main block of the script (lines 54-158): ds9 setup, observatory
location, aperture loading with optional recentering, reference aligner,
master dark and flat construction, then the per-frame loop on the
filtered image list. -/
def processMain (env : Env) (nc : NightConfig) (ic : InstConfig) : RunResult :=
  { ds9_window_id := if nc.ds9 then some ic.ds9_window_id else none,
    draw_regions := nc.ds9,
    ap_x := (mainApXY env nc ic).1, ap_y := (mainApXY env nc ic).2,
    ap_rsi := (mainRegion env nc).rsi, ap_rso := (mainRegion env nc).rso,
    master_dark := (mainDark env nc ic).1, dark_exp := (mainDark env nc ic).2,
    master_flat := mainFlat env nc ic,
    dark_displayed := (mainDark env nc ic).1.isSome && nc.ds9,
    flat_displayed := (mainFlat env nc ic).isSome && nc.ds9,
    frames := processFrames (mainCtx env nc ic) env.failed_donuts_exists
      (mainFiles env nc ic) }

/-- The arguments of a photometry invocation that the display toggle must
not influence: corrected data, measured shift, aperture positions and
radii, and the three time standards. -/
def photCore (pc : PhotCall) :
    Data × Shift × List ℚ × List ℚ × List ℚ × List ℚ × List ℚ × ℚ × ℚ × ℚ :=
  (pc.data, pc.shift, pc.x, pc.y, pc.rsi, pc.rso, pc.aperture_radii,
    pc.jd, pc.bjd, pc.hjd)

/-- The display-independent outcome of one frame: its identity, its
measured shift, the accept/reject decision, and the core photometry
arguments when photometry ran. -/
def coreView (fr : FrameResult) :
    String × Shift × Bool ×
      Option (Data × Shift × List ℚ × List ℚ × List ℚ × List ℚ × List ℚ × ℚ × ℚ × ℚ) :=
  (fr.filename, fr.shift, fr.accepted, fr.photCall.map photCore)

/-- A concrete image list for concrete runs: two science frames. -/
def imagesW : ImageList :=
  { files_filtered := fun _ _ => ["img1.fits", "img2.fits"] }

/-- A concrete environment, parameterised by the shifts measured for the
two frames of `imagesW`.  The master builders produce no master frames;
recentering returns its input positions unchanged. -/
def envW (s1 s2 : Shift) : Env :=
  { read_region_file := fun _ =>
      { x := [100, 200], y := [100, 200], rsi := [5, 5], rso := [10, 10] },
    source_extract := fun _ _ _ _ => ([101, 201], [99, 199]),
    recenter_stars := fun a b _ _ _ => (a, b),
    get_image_list := imagesW,
    make_master_dark_osc := fun _ _ _ _ _ => (none, 30),
    make_master_flat_osc := fun _ _ _ _ _ _ _ _ => none,
    measure_shift := fun _ f => if f = "img1.fits" then s1 else s2,
    correct_data_osc := fun _ _ _ _ _ _ _ _ _ _ _ =>
      ([1, 2], 2459000, 2459001, 2459002),
    failed_donuts_exists := false }

/-- A concrete night configuration with `max_donuts_shift = 1` and a
defocused run. -/
def ncW : NightConfig :=
  { ds9 := false, region_file := "regions.reg", defocused := true,
    reference_image := "ref.fits", max_sep_shift := 5, filter := "R",
    master_dark_filename := "master_dark.fits",
    master_flat_filename := "master_flat.fits",
    max_donuts_shift := 1, aperture_radii := [3, 4, 5] }

/-- A concrete instrument configuration. -/
def icW : InstConfig :=
  { ds9_window_id := "leowasp", index_offset := 1, olat := 28, olon := -16,
    elev := 2400, background_sigma := 3, overscan_keyword := "OVERSCAN",
    dark_keyword := "DARK", exptime_keyword := "EXPTIME",
    flat_keyword := "FLAT", image_keyword := "SCIENCE", ra_keyword := "RA",
    dec_keyword := "DEC", dateobs_start_keyword := "DATE-OBS" }

/-- Concrete environment realising the spec scenarios: frame 1 measures
shift (0.5, 0.9) (accepted), frame 2 measures (0.03, 1.2) (rejected). -/
def envA : Env := envW { x := 1/2, y := 9/10 } { x := 3/100, y := 12/10 }

/-- The run of `envA`. -/
def runA : RunResult := processMain envA ncW icW

/-- The correction-call record both concrete runs produce for a file. -/
def ccW (f : String) : CorrectCall :=
  { filename := f, filter := "R", location := { lat := 28, lon := -16, elev := 2400 },
    master_dark := none, master_flat := none, dark_exp := 30 }

/-- The photometry call of the accepted first frame of `runA`. -/
def pcAval : PhotCall :=
  { data := [1, 2], shift := { x := 1/2, y := 9/10 }, x := [100, 200],
    y := [100, 200], rsi := [5, 5], rso := [10, 10],
    aperture_radii := [3, 4, 5], filename := "img1.fits", jd := 2459000,
    bjd := 2459001, hjd := 2459002, ds9_name := none, gain := 2/5,
    draw_regions := false, index_offset := 1 }

/-- The first frame record of `runA`: shift (0.5, 0.9), accepted. -/
def frAval : FrameResult :=
  { filename := "img1.fits", displayed := false, correctCall := ccW "img1.fits",
    shift := { x := 1/2, y := 9/10 }, accepted := true, mkdirCalled := false,
    movedToQuarantine := false, photCall := some pcAval }

/-- The second frame record of `runA`: shift (0.03, 1.2), rejected,
quarantine directory created, file relocated. -/
def frRval : FrameResult :=
  { filename := "img2.fits", displayed := false, correctCall := ccW "img2.fits",
    shift := { x := 3/100, y := 12/10 }, accepted := false, mkdirCalled := true,
    movedToQuarantine := true, photCall := none }

/-- Concrete environment where frame 1 measures shift (1.004, 0): its
raw x component exceeds `max_donuts_shift = 1`, but its rounded value
does not. -/
def envC1 : Env := envW { x := 1004/1000, y := 0 } { x := 0, y := 0 }

/-- The run of `envC1`. -/
def runC1 : RunResult := processMain envC1 ncW icW

/-- The photometry call of the first frame of `runC1`: it receives the
unrounded shift (1.004, 0). -/
def pcC1val : PhotCall :=
  { data := [1, 2], shift := { x := 1004/1000, y := 0 }, x := [100, 200],
    y := [100, 200], rsi := [5, 5], rso := [10, 10],
    aperture_radii := [3, 4, 5], filename := "img1.fits", jd := 2459000,
    bjd := 2459001, hjd := 2459002, ds9_name := none, gain := 2/5,
    draw_regions := false, index_offset := 1 }

/-- The first frame record of `runC1`: raw shift (1.004, 0), accepted
because the gate tests the rounded values. -/
def frC1val : FrameResult :=
  { filename := "img1.fits", displayed := false, correctCall := ccW "img1.fits",
    shift := { x := 1004/1000, y := 0 }, accepted := true, mkdirCalled := false,
    movedToQuarantine := false, photCall := some pcC1val }

/-- The photometry call of the second frame of `runC1` (shift (0, 0)). -/
def pcC2val : PhotCall :=
  { data := [1, 2], shift := { x := 0, y := 0 }, x := [100, 200],
    y := [100, 200], rsi := [5, 5], rso := [10, 10],
    aperture_radii := [3, 4, 5], filename := "img2.fits", jd := 2459000,
    bjd := 2459001, hjd := 2459002, ds9_name := none, gain := 2/5,
    draw_regions := false, index_offset := 1 }

/-- The second frame record of `runC1`: shift (0, 0), accepted. -/
def frC2val : FrameResult :=
  { filename := "img2.fits", displayed := false, correctCall := ccW "img2.fits",
    shift := { x := 0, y := 0 }, accepted := true, mkdirCalled := false,
    movedToQuarantine := false, photCall := some pcC2val }

/-- Evaluation of the concrete run `runA`: the first frame is accepted,
the second rejected. -/
theorem runA_frames_eq : runA.frames = [frAval, frRval] := by
  norm_num +decide [runA, processMain, processFrames, processFrame, mainCtx,
    mainFiles, mainDark, mainFlat, mainApXY, mainRegion, mainLocation, envA,
    envW, ncW, icW, imagesW, round2, roundHalfEven, abs_eq_max_neg, max_def,
    frAval, frRval, pcAval, ccW]

/-- Evaluation of the concrete run `runC1`: both frames are accepted,
including the first one whose raw x shift is 1.004. -/
theorem runC1_frames_eq : runC1.frames = [frC1val, frC2val] := by
  norm_num +decide [runC1, processMain, processFrames, processFrame, mainCtx,
    mainFiles, mainDark, mainFlat, mainApXY, mainRegion, mainLocation, envC1,
    envW, ncW, icW, imagesW, round2, roundHalfEven, abs_eq_max_neg, max_def,
    frC1val, frC2val, pcC1val, pcC2val, ccW]

/-- The frame record of one loop iteration carries the shift measured by
the aligner on the raw filename (line 138). -/
theorem processFrame_shift (ctx : LoopCtx) (fd : Bool) (f : String) :
    (processFrame ctx fd f).1.shift = ctx.env.measure_shift ctx.nc.reference_image f := by
  dsimp only [processFrame]
  split <;> split <;> rfl

/-- The frame record of one loop iteration carries its filename. -/
theorem processFrame_filename (ctx : LoopCtx) (fd : Bool) (f : String) :
    (processFrame ctx fd f).1.filename = f := by
  dsimp only [processFrame]
  split <;> split <;> rfl

/-- The correction call of one loop iteration receives the filter, the
location, the masters and the dark exposure fixed before the loop. -/
theorem processFrame_correctCall (ctx : LoopCtx) (fd : Bool) (f : String) :
    (processFrame ctx fd f).1.correctCall
      = { filename := f, filter := ctx.nc.filter, location := ctx.location,
          master_dark := ctx.master_dark, master_flat := ctx.master_flat,
          dark_exp := ctx.dark_exp } := by
  dsimp only [processFrame]
  split <;> split <;> rfl

/-- Photometry runs for a frame exactly when the gate accepted it. -/
theorem processFrame_photCall_isSome (ctx : LoopCtx) (fd : Bool) (f : String) :
    (processFrame ctx fd f).1.photCall.isSome = (processFrame ctx fd f).1.accepted := by
  dsimp only [processFrame]
  split <;> split <;> rfl

/-- A frame is relocated to quarantine exactly when it was rejected. -/
theorem processFrame_moved (ctx : LoopCtx) (fd : Bool) (f : String) :
    (processFrame ctx fd f).1.movedToQuarantine = !(processFrame ctx fd f).1.accepted := by
  dsimp only [processFrame]
  split <;> split <;> rfl

/-- `mkdir` is invoked exactly when the frame is rejected and the
quarantine directory does not exist yet. -/
theorem processFrame_mkdirCalled (ctx : LoopCtx) (fd : Bool) (f : String) :
    (processFrame ctx fd f).1.mkdirCalled
      = (!(processFrame ctx fd f).1.accepted && !fd) := by
  dsimp only [processFrame]
  split <;> split <;> rfl

/-- The quarantine-directory state after one iteration: it exists
afterwards iff it existed before or the frame was rejected. -/
theorem processFrame_snd (ctx : LoopCtx) (fd : Bool) (f : String) :
    (processFrame ctx fd f).2 = (!(processFrame ctx fd f).1.accepted || fd) := by
  dsimp only [processFrame]
  split <;> split <;> rfl

/-- The `np.sum(shifts > max) > 0` test of line 143 holds iff one of the
two per-axis comparisons holds. -/
theorem exceed_pos_iff (m a b : ℚ) :
    (0 < ((if m < a then 1 else 0) + (if m < b then 1 else 0) : ℕ)) ↔ (m < a ∨ m < b) := by
  by_cases h1 : m < a <;> by_cases h2 : m < b <;> simp [h1, h2]

/-- The gate decision of lines 139-143: a frame is accepted iff both
absolute rounded shift components are at most `max_donuts_shift`. -/
theorem processFrame_accepted (ctx : LoopCtx) (fd : Bool) (f : String) :
    ((processFrame ctx fd f).1.accepted = true) ↔
      (|round2 (ctx.env.measure_shift ctx.nc.reference_image f).x| ≤ ctx.nc.max_donuts_shift ∧
        |round2 (ctx.env.measure_shift ctx.nc.reference_image f).y| ≤ ctx.nc.max_donuts_shift) := by
  dsimp only [processFrame]
  split
  next hx =>
    split
    next hy =>
      rw [if_pos (show (0:ℕ) < 1 + 1 by norm_num)]
      simp [hx.not_le]
    next hy =>
      rw [if_pos (show (0:ℕ) < 1 + 0 by norm_num)]
      simp [hx.not_le]
  next hx =>
    split
    next hy =>
      rw [if_pos (show (0:ℕ) < 0 + 1 by norm_num)]
      simp [hy.not_le]
    next hy =>
      rw [if_neg (show ¬(0:ℕ) < 0 + 0 by norm_num)]
      simp [not_lt.mp hx, not_lt.mp hy]

/-- When photometry runs for a frame, its arguments are exactly the data
returned by correction, the unrounded measured shift, the fixed aperture
arrays and radii, the filename, the three time standards, the configured
display arguments, and the hardcoded gain 0.4. -/
theorem processFrame_photCall_spec (ctx : LoopCtx) (fd : Bool) (f : String)
    (pc : PhotCall) (h : (processFrame ctx fd f).1.photCall = some pc) :
    pc.data = (ctx.env.correct_data_osc f ctx.nc.filter ctx.location ctx.master_dark
        ctx.ic.overscan_keyword ctx.master_flat ctx.dark_exp ctx.ic.exptime_keyword
        ctx.ic.ra_keyword ctx.ic.dec_keyword ctx.ic.dateobs_start_keyword).1 ∧
      pc.shift = ctx.env.measure_shift ctx.nc.reference_image f ∧
      pc.x = ctx.x ∧ pc.y = ctx.y ∧ pc.rsi = ctx.rsi ∧ pc.rso = ctx.rso ∧
      pc.aperture_radii = ctx.nc.aperture_radii ∧ pc.filename = f ∧
      pc.jd = (ctx.env.correct_data_osc f ctx.nc.filter ctx.location ctx.master_dark
        ctx.ic.overscan_keyword ctx.master_flat ctx.dark_exp ctx.ic.exptime_keyword
        ctx.ic.ra_keyword ctx.ic.dec_keyword ctx.ic.dateobs_start_keyword).2.1 ∧
      pc.bjd = (ctx.env.correct_data_osc f ctx.nc.filter ctx.location ctx.master_dark
        ctx.ic.overscan_keyword ctx.master_flat ctx.dark_exp ctx.ic.exptime_keyword
        ctx.ic.ra_keyword ctx.ic.dec_keyword ctx.ic.dateobs_start_keyword).2.2.1 ∧
      pc.hjd = (ctx.env.correct_data_osc f ctx.nc.filter ctx.location ctx.master_dark
        ctx.ic.overscan_keyword ctx.master_flat ctx.dark_exp ctx.ic.exptime_keyword
        ctx.ic.ra_keyword ctx.ic.dec_keyword ctx.ic.dateobs_start_keyword).2.2.2 ∧
      pc.ds9_name = ctx.ds9_window_id ∧ pc.gain = 2/5 ∧
      pc.draw_regions = ctx.draw_regions ∧ pc.index_offset = ctx.ic.index_offset := by
  dsimp only [processFrame] at h
  split at h <;> split at h
  · rw [if_pos (show (0:ℕ) < 1 + 1 by norm_num)] at h
    exact absurd h (by simp)
  · rw [if_pos (show (0:ℕ) < 1 + 0 by norm_num)] at h
    exact absurd h (by simp)
  · rw [if_pos (show (0:ℕ) < 0 + 1 by norm_num)] at h
    exact absurd h (by simp)
  · rw [if_neg (show ¬(0:ℕ) < 0 + 0 by norm_num)] at h
    injection h with h2
    subst h2
    exact ⟨rfl, rfl, rfl, rfl, rfl, rfl, rfl, rfl, rfl, rfl, rfl, rfl, rfl, rfl, rfl⟩

/-- Every record produced by the loop comes from one iteration of the
loop body on one file of the list. -/
theorem mem_processFrames {ctx : LoopCtx} {fs : List String} {fd : Bool}
    {fr : FrameResult} (h : fr ∈ processFrames ctx fd fs) :
    ∃ fd2 f, f ∈ fs ∧ fr = (processFrame ctx fd2 f).1 := by
  induction fs generalizing fd with
  | nil => simp [processFrames] at h
  | cons f fs ih =>
    dsimp only [processFrames] at h
    rcases List.mem_cons.mp h with h1 | h1
    · exact ⟨fd, f, List.mem_cons_self f fs, h1⟩
    · obtain ⟨fd2, g, hg, he⟩ := ih h1
      exact ⟨fd2, g, List.mem_cons_of_mem f hg, he⟩

/-- The loop produces one record per file of the filtered list, in
order, carrying the file's name. -/
theorem processFrames_map_filename (ctx : LoopCtx) (fd : Bool) (fs : List String) :
    (processFrames ctx fd fs).map FrameResult.filename = fs := by
  induction fs generalizing fd with
  | nil => rfl
  | cons f fs ih =>
    dsimp only [processFrames]
    rw [List.map_cons, processFrame_filename, ih]

/-- The shifts recorded by the loop are exactly the aligner measurements
on the raw filenames, in list order. -/
theorem processFrames_map_shift (ctx : LoopCtx) (fd : Bool) (fs : List String) :
    (processFrames ctx fd fs).map FrameResult.shift
      = fs.map (ctx.env.measure_shift ctx.nc.reference_image) := by
  induction fs generalizing fd with
  | nil => rfl
  | cons f fs ih =>
    dsimp only [processFrames]
    rw [List.map_cons, List.map_cons, processFrame_shift, ih]

/-- Once the quarantine directory exists, no later iteration calls
`mkdir`. -/
theorem processFrames_mkdir_all_false (ctx : LoopCtx) (fs : List String) :
    ∀ fr ∈ processFrames ctx true fs, fr.mkdirCalled = false := by
  induction fs with
  | nil =>
    intro fr h
    simp [processFrames] at h
  | cons f fs ih =>
    intro fr h
    dsimp only [processFrames] at h
    rcases List.mem_cons.mp h with h1 | h1
    · subst h1
      rw [processFrame_mkdirCalled]
      simp
    · have hs : (processFrame ctx true f).2 = true := by
        rw [processFrame_snd]
        simp
      rw [hs] at h1
      exact ih fr h1

/-- `mkdir` is called at most once over the whole loop. -/
theorem processFrames_mkdir_count (ctx : LoopCtx) (fd : Bool) (fs : List String) :
    ((processFrames ctx fd fs).filter (fun fr => fr.mkdirCalled)).length ≤ 1 := by
  induction fs generalizing fd with
  | nil => simp [processFrames]
  | cons f fs ih =>
    dsimp only [processFrames]
    rw [List.filter_cons]
    by_cases hm : (processFrame ctx fd f).1.mkdirCalled = true
    · have hacc : (processFrame ctx fd f).1.accepted = false := by
        rw [processFrame_mkdirCalled] at hm
        simp only [Bool.and_eq_true, Bool.not_eq_true'] at hm
        exact hm.1
      have hs : (processFrame ctx fd f).2 = true := by
        rw [processFrame_snd, hacc]
        rfl
      have hnil : (processFrames ctx (processFrame ctx fd f).2 fs).filter
          (fun fr => fr.mkdirCalled) = [] := by
        rw [hs, List.filter_eq_nil_iff]
        intro a ha
        simp [processFrames_mkdir_all_false ctx fs a ha]
      rw [hnil, hm]
      simp
    · simp only [Bool.not_eq_true] at hm
      rw [hm]
      simp only [Bool.false_eq_true, if_false]
      exact ih _

/-- Full characterisation of lazy quarantine creation: iteration `i`
calls `mkdir` iff its frame is rejected, the directory did not exist
when the loop started, and every earlier frame was accepted. -/
theorem processFrames_mkdir_getD (ctx : LoopCtx) (fs : List String) :
    ∀ (fd : Bool) (i : ℕ), i < (processFrames ctx fd fs).length →
      ((processFrames ctx fd fs).getD i default).mkdirCalled
        = (!((processFrames ctx fd fs).getD i default).accepted && !fd
            && ((processFrames ctx fd fs).take i).all FrameResult.accepted) := by
  induction fs with
  | nil =>
    intro fd i hi
    simp [processFrames] at hi
  | cons f fs ih =>
    intro fd i hi
    dsimp only [processFrames] at hi ⊢
    cases i with
    | zero =>
      simp only [List.getD_cons_zero, List.take_zero, List.all_nil, Bool.and_true]
      exact processFrame_mkdirCalled ctx fd f
    | succ i =>
      simp only [List.getD_cons_succ, List.take_succ_cons, List.all_cons]
      simp only [List.length_cons] at hi
      rw [ih (processFrame ctx fd f).2 i (Nat.lt_of_succ_lt_succ hi),
        processFrame_snd]
      cases ha : (processFrame ctx fd f).1.accepted <;> cases fd <;> simp

/-- Two loop contexts that agree on everything the gate, the correction
and the core photometry arguments depend on produce the same
display-independent outcome and the same quarantine state for any one
iteration. -/
theorem processFrame_core (c1 c2 : LoopCtx) (fd : Bool) (f : String)
    (h1 : c1.env = c2.env) (h2 : c1.nc.reference_image = c2.nc.reference_image)
    (h3 : c1.nc.filter = c2.nc.filter)
    (h4 : c1.nc.max_donuts_shift = c2.nc.max_donuts_shift)
    (h5 : c1.nc.aperture_radii = c2.nc.aperture_radii)
    (h6 : c1.location = c2.location) (h7 : c1.master_dark = c2.master_dark)
    (h8 : c1.dark_exp = c2.dark_exp) (h9 : c1.master_flat = c2.master_flat)
    (h10 : c1.ic = c2.ic) (h11 : c1.x = c2.x) (h12 : c1.y = c2.y)
    (h13 : c1.rsi = c2.rsi) (h14 : c1.rso = c2.rso) :
    coreView (processFrame c1 fd f).1 = coreView (processFrame c2 fd f).1 ∧
      (processFrame c1 fd f).2 = (processFrame c2 fd f).2 := by
  dsimp only [processFrame]
  rw [h1, h2, h3, h4, h5, h6, h7, h8, h9, h10, h11, h12, h13, h14]
  split <;> split <;> exact ⟨rfl, rfl⟩

/-- Lifting of `processFrame_core` to the whole loop. -/
theorem processFrames_core (c1 c2 : LoopCtx)
    (h1 : c1.env = c2.env) (h2 : c1.nc.reference_image = c2.nc.reference_image)
    (h3 : c1.nc.filter = c2.nc.filter)
    (h4 : c1.nc.max_donuts_shift = c2.nc.max_donuts_shift)
    (h5 : c1.nc.aperture_radii = c2.nc.aperture_radii)
    (h6 : c1.location = c2.location) (h7 : c1.master_dark = c2.master_dark)
    (h8 : c1.dark_exp = c2.dark_exp) (h9 : c1.master_flat = c2.master_flat)
    (h10 : c1.ic = c2.ic) (h11 : c1.x = c2.x) (h12 : c1.y = c2.y)
    (h13 : c1.rsi = c2.rsi) (h14 : c1.rso = c2.rso) :
    ∀ (fd : Bool) (fs : List String),
      (processFrames c1 fd fs).map coreView = (processFrames c2 fd fs).map coreView := by
  intro fd fs
  induction fs generalizing fd with
  | nil => rfl
  | cons f fs ih =>
    dsimp only [processFrames]
    rw [List.map_cons, List.map_cons]
    obtain ⟨hc, hs⟩ := processFrame_core c1 c2 fd f h1 h2 h3 h4 h5 h6 h7 h8 h9
      h10 h11 h12 h13 h14
    rw [hc, hs, ih]

/-- Rounding a rational strictly below `k + 1/2` to the nearest integer
(ties to even) gives at most `k`. -/
theorem roundHalfEven_le (q : ℚ) (k : ℤ) (h : q < (k : ℚ) + 1/2) :
    roundHalfEven q ≤ k := by
  have hf : (⌊q⌋ : ℚ) ≤ q := Int.floor_le q
  unfold roundHalfEven
  split_ifs with h1 h2 h3
  · have hq : (⌊q⌋ : ℚ) < (k : ℚ) + 1 := by linarith
    have : ⌊q⌋ < k + 1 := by exact_mod_cast hq
    omega
  · by_contra hc
    push_neg at hc
    have hk2 : k ≤ ⌊q⌋ := by omega
    have hk3 : (k : ℚ) ≤ (⌊q⌋ : ℚ) := by exact_mod_cast hk2
    linarith
  · have he : q - (⌊q⌋ : ℚ) = 1/2 := le_antisymm (not_lt.mp h2) (not_lt.mp h1)
    have hq : (⌊q⌋ : ℚ) < (k : ℚ) := by linarith
    have : ⌊q⌋ < k := by exact_mod_cast hq
    omega
  · have he : q - (⌊q⌋ : ℚ) = 1/2 := le_antisymm (not_lt.mp h2) (not_lt.mp h1)
    have hq : (⌊q⌋ : ℚ) < (k : ℚ) := by linarith
    have : ⌊q⌋ < k := by exact_mod_cast hq
    omega

/-- Rounding a rational strictly above `k - 1/2` to the nearest integer
(ties to even) gives at least `k`. -/
theorem le_roundHalfEven (q : ℚ) (k : ℤ) (h : (k : ℚ) - 1/2 < q) :
    k ≤ roundHalfEven q := by
  have hf : q < (⌊q⌋ : ℚ) + 1 := Int.lt_floor_add_one q
  unfold roundHalfEven
  split_ifs with h1 h2 h3
  · have hq : (k : ℚ) < (⌊q⌋ : ℚ) + 1 := by linarith
    have : k < ⌊q⌋ + 1 := by exact_mod_cast hq
    omega
  · have hq : (k : ℚ) < (⌊q⌋ : ℚ) + 2 := by linarith
    have : k < ⌊q⌋ + 2 := by exact_mod_cast hq
    omega
  · have he : q - (⌊q⌋ : ℚ) = 1/2 := le_antisymm (not_lt.mp h2) (not_lt.mp h1)
    have hq : (k : ℚ) < (⌊q⌋ : ℚ) + 1 := by linarith
    have : k < ⌊q⌋ + 1 := by exact_mod_cast hq
    omega
  · have he : q - (⌊q⌋ : ℚ) = 1/2 := le_antisymm (not_lt.mp h2) (not_lt.mp h1)
    have hq : (k : ℚ) < (⌊q⌋ : ℚ) + 1 := by linarith
    have : k < ⌊q⌋ + 1 := by exact_mod_cast hq
    omega

/-- If `|q| < k + 1/2` then `|roundHalfEven q| ≤ k`. -/
theorem abs_roundHalfEven_le (q : ℚ) (k : ℤ) (h : |q| < (k : ℚ) + 1/2) :
    |roundHalfEven q| ≤ k := by
  rw [abs_lt] at h
  rw [abs_le]
  constructor
  · exact le_roundHalfEven q (-k) (by push_cast; linarith [h.1])
  · exact roundHalfEven_le q k h.2

/-- If a value exceeds a threshold on the centesimal grid by less than
half of 0.01, its rounding to 2 decimal places stays at or below the
threshold. -/
theorem abs_round2_le (t : ℚ) (k : ℤ) (h : |t| < (k : ℚ)/100 + 1/200) :
    |round2 t| ≤ (k : ℚ)/100 := by
  have h2 : |t * 100| < (k : ℚ) + 1/2 := by
    rw [abs_mul, show |(100 : ℚ)| = 100 by norm_num]
    linarith
  have h3 := abs_roundHalfEven_le (t * 100) k h2
  have h4 : |(roundHalfEven (t * 100) : ℚ)| ≤ (k : ℚ) := by
    rw [← Int.cast_abs]
    exact_mod_cast h3
  unfold round2
  rw [abs_div, show |(100 : ℚ)| = 100 by norm_num]
  rw [div_le_div_iff_of_pos_right (by norm_num : (0:ℚ) < 100)]
  exact h4

/-- Every frame of a run is accepted iff both absolute rounded shift
components are at most the night's `max_donuts_shift`. -/
theorem accepted_iff_rounded (env : Env) (nc : NightConfig) (ic : InstConfig)
    {fr : FrameResult} (hfr : fr ∈ (processMain env nc ic).frames) :
    fr.accepted = true ↔
      (|round2 fr.shift.x| ≤ nc.max_donuts_shift ∧
        |round2 fr.shift.y| ≤ nc.max_donuts_shift) := by
  have h2 : fr ∈ processFrames (mainCtx env nc ic) env.failed_donuts_exists
      (mainFiles env nc ic) := hfr
  obtain ⟨fd2, f, _, he⟩ := mem_processFrames h2
  subst he
  rw [processFrame_shift]
  exact processFrame_accepted (mainCtx env nc ic) fd2 f

/-- Membership of the accepted first frame in the concrete run `runA`. -/
theorem runA_mem_frAval : frAval ∈ (processMain envA ncW icW).frames := by
  rw [show (processMain envA ncW icW).frames = [frAval, frRval] from runA_frames_eq]
  exact List.mem_cons_self frAval [frRval]

/-- Membership of the rejected second frame in the concrete run `runA`. -/
theorem runA_mem_frRval : frRval ∈ (processMain envA ncW icW).frames := by
  rw [show (processMain envA ncW icW).frames = [frAval, frRval] from runA_frames_eq]
  exact List.mem_cons_of_mem frAval (List.mem_cons_self frRval [])

/-- Membership of the first frame in the concrete run `runC1`. -/
theorem runC1_mem_frC1val : frC1val ∈ (processMain envC1 ncW icW).frames := by
  rw [show (processMain envC1 ncW icW).frames = [frC1val, frC2val] from runC1_frames_eq]
  exact List.mem_cons_self frC1val [frC2val]

/-- C1 counterexample: in the concrete run `runC1` with
`max_donuts_shift = 1`, the first frame measures raw shift
(1.004, 0); its raw |x| exceeds the tolerance, yet the gate accepts it
(the gate tests values rounded to 2 decimals), refuting the claim that
acceptance holds iff the raw absolute components are within tolerance. -/
theorem C1_counterexample :
    frC1val ∈ runC1.frames ∧ frC1val.accepted = true ∧
      ¬(|frC1val.shift.x| ≤ ncW.max_donuts_shift ∧
          |frC1val.shift.y| ≤ ncW.max_donuts_shift) := by
  refine ⟨?_, rfl, ?_⟩
  · rw [runC1_frames_eq]
    exact List.mem_cons_self frC1val [frC2val]
  · norm_num [frC1val, ncW, abs_eq_max_neg, max_def]

/-- C1 (amended): for every frame in the main loop, the quality gate
accepts the frame iff `abs(round(shift.x, 2)) <= maxShift` and
`abs(round(shift.y, 2)) <= maxShift`, where the rounding is to 2 decimal
places; the test is independent per axis, and the boundary case
`abs(round(shift, 2)) == maxShift` is accepted (rejection requires
strict greater-than on at least one axis). -/
theorem C1_gate_rounded (env : Env) (nc : NightConfig) (ic : InstConfig)
    (fr : FrameResult) (hfr : fr ∈ (processMain env nc ic).frames) :
    fr.accepted = true ↔
      (|round2 fr.shift.x| ≤ nc.max_donuts_shift ∧
        |round2 fr.shift.y| ≤ nc.max_donuts_shift) :=
  accepted_iff_rounded env nc ic hfr

/-- C1 witness: the amended gate characterisation evaluated on the
accepted frame of the concrete run `runA`. -/
theorem C1_gate_rounded_witness :
    frAval.accepted = true ↔
      (|round2 frAval.shift.x| ≤ ncW.max_donuts_shift ∧
        |round2 frAval.shift.y| ≤ ncW.max_donuts_shift) :=
  C1_gate_rounded envA ncW icW frAval runA_mem_frAval

/-- C2: for every frame of the main loop, photometry runs for the frame
iff the gate accepted it, and the loop visits every file of the filtered
image list in order (a rejection only skips the remainder of its own
iteration). -/
theorem C2_reject_skips_phot (env : Env) (nc : NightConfig) (ic : InstConfig)
    (fr : FrameResult) (hfr : fr ∈ (processMain env nc ic).frames) :
    fr.photCall.isSome = fr.accepted ∧
      (processMain env nc ic).frames.map FrameResult.filename
        = env.get_image_list.files_filtered ic.image_keyword nc.filter := by
  constructor
  · have h2 : fr ∈ processFrames (mainCtx env nc ic) env.failed_donuts_exists
        (mainFiles env nc ic) := hfr
    obtain ⟨fd2, f, _, he⟩ := mem_processFrames h2
    subst he
    exact processFrame_photCall_isSome (mainCtx env nc ic) fd2 f
  · exact processFrames_map_filename (mainCtx env nc ic) env.failed_donuts_exists
      (mainFiles env nc ic)

/-- C2 witness: the rejected frame of the concrete run `runA` has no
photometry call, and the loop still visited both files. -/
theorem C2_reject_skips_phot_witness :
    frRval.photCall.isSome = frRval.accepted ∧
      (processMain envA ncW icW).frames.map FrameResult.filename
        = envA.get_image_list.files_filtered icW.image_keyword ncW.filter :=
  C2_reject_skips_phot envA ncW icW frRval runA_mem_frRval

/-- C10: the gate decision is computed from the absolute shift
components rounded to 2 decimal places, while an accepted frame's
photometry call receives the original unrounded shift; consequently,
when `maxShift` lies on the centesimal grid, a frame whose raw absolute
components exceed `maxShift` by less than half of 0.01 on each axis
(e.g. `abs(shift.x) = 1.004` with `maxShift = 1.0`) is accepted. -/
theorem C10_rounded_gate_raw_phot (env : Env) (nc : NightConfig) (ic : InstConfig)
    (fr : FrameResult) (hfr : fr ∈ (processMain env nc ic).frames)
    (k : ℤ) (hk : nc.max_donuts_shift = (k : ℚ)/100) :
    (fr.accepted = true ↔
      (|round2 fr.shift.x| ≤ nc.max_donuts_shift ∧
        |round2 fr.shift.y| ≤ nc.max_donuts_shift)) ∧
    (∀ pc, fr.photCall = some pc → pc.shift = fr.shift) ∧
    (|fr.shift.x| < nc.max_donuts_shift + 1/200 →
      |fr.shift.y| < nc.max_donuts_shift + 1/200 → fr.accepted = true) := by
  have hiff := accepted_iff_rounded env nc ic hfr
  refine ⟨hiff, ?_, ?_⟩
  · intro pc hpc
    have h2 : fr ∈ processFrames (mainCtx env nc ic) env.failed_donuts_exists
        (mainFiles env nc ic) := hfr
    obtain ⟨fd2, f, _, he⟩ := mem_processFrames h2
    subst he
    obtain ⟨_, hsh, _⟩ := processFrame_photCall_spec (mainCtx env nc ic) fd2 f pc hpc
    rw [processFrame_shift]
    exact hsh
  · intro hx hy
    rw [hk] at hx hy
    refine hiff.mpr ⟨?_, ?_⟩ <;> rw [hk]
    · exact abs_round2_le fr.shift.x k hx
    · exact abs_round2_le fr.shift.y k hy

/-- C10 witness: the first frame of `runC1`, with raw shift
(1.004, 0) and `maxShift = 1 = 100/100`, is accepted. -/
theorem C10_rounded_gate_raw_phot_witness : frC1val.accepted = true :=
  (C10_rounded_gate_raw_phot envC1 ncW icW frC1val runC1_mem_frC1val 100
      (by norm_num [ncW])).2.2
    (by norm_num [frC1val, ncW, abs_eq_max_neg, max_def])
    (by norm_num [frC1val, ncW, abs_eq_max_neg, max_def])

/-- C3: on a defocused night the apertures loaded from the region file
are used unchanged; otherwise source extraction runs on the reference
image and the positions are replaced by the recentering result, which
(under the recentering collaborator's length-preservation contract) has
the same length as the input. -/
theorem C3_recentering (env : Env) (nc : NightConfig) (ic : InstConfig)
    (hrec : ∀ (a b sx sy : List ℚ) (m : ℚ),
      (env.recenter_stars a b sx sy m).1.length = a.length ∧
        (env.recenter_stars a b sx sy m).2.length = b.length) :
    (nc.defocused = true →
      (processMain env nc ic).ap_x = (mainRegion env nc).x ∧
      (processMain env nc ic).ap_y = (mainRegion env nc).y ∧
      (processMain env nc ic).ap_rsi = (mainRegion env nc).rsi ∧
      (processMain env nc ic).ap_rso = (mainRegion env nc).rso) ∧
    (nc.defocused = false →
      ((processMain env nc ic).ap_x, (processMain env nc ic).ap_y)
          = env.recenter_stars (mainRegion env nc).x (mainRegion env nc).y
              (env.source_extract nc.reference_image ic.background_sigma
                (mainRegion env nc).rsi (mainRegion env nc).rso).1
              (env.source_extract nc.reference_image ic.background_sigma
                (mainRegion env nc).rsi (mainRegion env nc).rso).2
              nc.max_sep_shift ∧
      (processMain env nc ic).ap_x.length = (mainRegion env nc).x.length ∧
      (processMain env nc ic).ap_y.length = (mainRegion env nc).y.length) := by
  constructor
  · intro hd
    refine ⟨?_, ?_, rfl, rfl⟩ <;>
      simp only [show (processMain env nc ic).ap_x = (mainApXY env nc ic).1 from rfl,
        show (processMain env nc ic).ap_y = (mainApXY env nc ic).2 from rfl,
        mainApXY, hd, Bool.not_true, Bool.false_eq_true, if_false]
  · intro hd
    have hx : (processMain env nc ic).ap_x = (mainApXY env nc ic).1 := rfl
    have hy : (processMain env nc ic).ap_y = (mainApXY env nc ic).2 := rfl
    have hxy : mainApXY env nc ic
        = env.recenter_stars (mainRegion env nc).x (mainRegion env nc).y
            (env.source_extract nc.reference_image ic.background_sigma
              (mainRegion env nc).rsi (mainRegion env nc).rso).1
            (env.source_extract nc.reference_image ic.background_sigma
              (mainRegion env nc).rsi (mainRegion env nc).rso).2
            nc.max_sep_shift := by
      simp only [mainApXY, hd, Bool.not_false, if_true]
    refine ⟨?_, ?_, ?_⟩
    · rw [hx, hy, hxy]
    · rw [hx, hxy]
      exact (hrec _ _ _ _ _).1
    · rw [hy, hxy]
      exact (hrec _ _ _ _ _).2

/-- C3 witness: the defocused concrete run `runA` keeps the apertures of
the region file unchanged. -/
theorem C3_recentering_witness :
    (processMain envA ncW icW).ap_x = (mainRegion envA ncW).x ∧
    (processMain envA ncW icW).ap_y = (mainRegion envA ncW).y ∧
    (processMain envA ncW icW).ap_rsi = (mainRegion envA ncW).rsi ∧
    (processMain envA ncW icW).ap_rso = (mainRegion envA ncW).rso :=
  (C3_recentering envA ncW icW (fun _ _ _ _ _ => ⟨rfl, rfl⟩)).1 rfl

/-- C4: the per-frame shifts are exactly the aligner's measurements on
the raw filenames selected from the image list, and they are unchanged
if the correction collaborator is replaced by any other one, so the
shift is measured on the raw frame, never on the corrected pixel data. -/
theorem C4_shift_on_raw (env : Env) (nc : NightConfig) (ic : InstConfig)
    (g : String → String → Location → Option Master → String → Option Master → ℚ →
      String → String → String → String → Data × ℚ × ℚ × ℚ) :
    ((processMain env nc ic).frames.map FrameResult.shift
      = ((processMain env nc ic).frames.map FrameResult.filename).map
          (env.measure_shift nc.reference_image)) ∧
    ((processMain { env with correct_data_osc := g } nc ic).frames.map FrameResult.shift
      = (processMain env nc ic).frames.map FrameResult.shift) := by
  constructor
  · have h2 := processFrames_map_filename (mainCtx env nc ic)
      env.failed_donuts_exists (mainFiles env nc ic)
    rw [show (processMain env nc ic).frames.map FrameResult.filename
        = mainFiles env nc ic from h2]
    exact processFrames_map_shift (mainCtx env nc ic) env.failed_donuts_exists
      (mainFiles env nc ic)
  · have ha := processFrames_map_shift (mainCtx { env with correct_data_osc := g } nc ic)
      env.failed_donuts_exists (mainFiles { env with correct_data_osc := g } nc ic)
    have hb := processFrames_map_shift (mainCtx env nc ic) env.failed_donuts_exists
      (mainFiles env nc ic)
    exact ha.trans hb.symm

/-- C5: every photometry invocation of a run receives the one aperture
set fixed before the loop (positions, annulus radii and the configured
aperture radii) and the frame's own measured shift alongside it. -/
theorem C5_apertures_fixed (env : Env) (nc : NightConfig) (ic : InstConfig)
    (fr : FrameResult) (pc : PhotCall)
    (hfr : fr ∈ (processMain env nc ic).frames)
    (hpc : fr.photCall = some pc) :
    pc.x = (processMain env nc ic).ap_x ∧ pc.y = (processMain env nc ic).ap_y ∧
      pc.rsi = (processMain env nc ic).ap_rsi ∧
      pc.rso = (processMain env nc ic).ap_rso ∧
      pc.aperture_radii = nc.aperture_radii ∧ pc.shift = fr.shift := by
  have h2 : fr ∈ processFrames (mainCtx env nc ic) env.failed_donuts_exists
      (mainFiles env nc ic) := hfr
  obtain ⟨fd2, f, _, he⟩ := mem_processFrames h2
  subst he
  obtain ⟨_, hsh, hx, hy, hrsi, hrso, hrad, _⟩ :=
    processFrame_photCall_spec (mainCtx env nc ic) fd2 f pc hpc
  refine ⟨hx, hy, hrsi, hrso, hrad, ?_⟩
  rw [processFrame_shift]
  exact hsh

/-- C5 witness: the photometry call of the accepted frame of `runA`
receives the run's aperture set and that frame's shift. -/
theorem C5_apertures_fixed_witness :
    pcAval.x = (processMain envA ncW icW).ap_x ∧
      pcAval.y = (processMain envA ncW icW).ap_y ∧
      pcAval.rsi = (processMain envA ncW icW).ap_rsi ∧
      pcAval.rso = (processMain envA ncW icW).ap_rso ∧
      pcAval.aperture_radii = ncW.aperture_radii ∧ pcAval.shift = frAval.shift :=
  C5_apertures_fixed envA ncW icW frAval pcAval runA_mem_frAval rfl

/-- C6: the orchestrator treats no master-builder outcome as an error:
whatever the dark builder returns (present or absent) is passed
unchanged, with its dark exposure, into flat construction, and whatever
each builder returns (present or absent) is passed unchanged into every
per-frame correction call; in particular an absent master dark and/or an
absent master flat flow through the whole run, which always completes. -/
theorem C6_absent_master (env : Env) (nc : NightConfig) (ic : InstConfig) :
    (processMain env nc ic).master_flat
      = env.make_master_flat_osc env.get_image_list nc.filter ic.overscan_keyword
          (processMain env nc ic).master_dark (processMain env nc ic).dark_exp
          ic.flat_keyword ic.exptime_keyword nc.master_flat_filename ∧
    ∀ fr ∈ (processMain env nc ic).frames,
      fr.correctCall.master_dark = (processMain env nc ic).master_dark ∧
        fr.correctCall.master_flat = (processMain env nc ic).master_flat ∧
        fr.correctCall.dark_exp = (processMain env nc ic).dark_exp := by
  constructor
  · rfl
  · intro fr hfr
    have h2 : fr ∈ processFrames (mainCtx env nc ic) env.failed_donuts_exists
        (mainFiles env nc ic) := hfr
    obtain ⟨fd2, f, _, he⟩ := mem_processFrames h2
    subst he
    rw [processFrame_correctCall]
    exact ⟨rfl, rfl, rfl⟩

/-- C6 witness: in `runA` both builders return no master; the absent
dark (with its exposure placeholder) reaches flat construction, and the
accepted frame's correction call receives both absent masters. -/
theorem C6_absent_master_witness :
    (processMain envA ncW icW).master_dark = none ∧
    (processMain envA ncW icW).master_flat = none ∧
    ((processMain envA ncW icW).master_flat
      = envA.make_master_flat_osc envA.get_image_list ncW.filter
          icW.overscan_keyword (processMain envA ncW icW).master_dark
          (processMain envA ncW icW).dark_exp
          icW.flat_keyword icW.exptime_keyword ncW.master_flat_filename) ∧
    (frAval.correctCall.master_dark = (processMain envA ncW icW).master_dark ∧
      frAval.correctCall.master_flat = (processMain envA ncW icW).master_flat ∧
      frAval.correctCall.dark_exp = (processMain envA ncW icW).dark_exp) :=
  ⟨rfl, rfl, (C6_absent_master envA ncW icW).1,
    (C6_absent_master envA ncW icW).2 frAval runA_mem_frAval⟩

/-- C7: every photometry invocation of every run uses the hardcoded
gain constant 0.4, independently of the environment, the frame, and
both configuration mappings. -/
theorem C7_fixed_gain (env : Env) (nc : NightConfig) (ic : InstConfig)
    (fr : FrameResult) (pc : PhotCall)
    (hfr : fr ∈ (processMain env nc ic).frames)
    (hpc : fr.photCall = some pc) :
    pc.gain = 2/5 := by
  have h2 : fr ∈ processFrames (mainCtx env nc ic) env.failed_donuts_exists
      (mainFiles env nc ic) := hfr
  obtain ⟨fd2, f, _, he⟩ := mem_processFrames h2
  subst he
  obtain ⟨_, _, _, _, _, _, _, _, _, _, _, _, hg, _⟩ :=
    processFrame_photCall_spec (mainCtx env nc ic) fd2 f pc hpc
  exact hg

/-- C7 witness: the photometry call of the accepted frame of `runA`
carries gain 0.4. -/
theorem C7_fixed_gain_witness : pcAval.gain = 2/5 :=
  C7_fixed_gain envA ncW icW frAval pcAval runA_mem_frAval rfl

/-- C8: the quarantine directory is created exactly at a rejected frame
before which every frame was accepted and only when it did not already
exist, hence at most once per run; and every rejected frame is relocated
into it. -/
theorem C8_quarantine (env : Env) (nc : NightConfig) (ic : InstConfig) :
    (∀ i : ℕ, i < (processMain env nc ic).frames.length →
      ((processMain env nc ic).frames.getD i default).mkdirCalled
        = (!((processMain env nc ic).frames.getD i default).accepted
            && !env.failed_donuts_exists
            && (((processMain env nc ic).frames.take i).all FrameResult.accepted))) ∧
    ((processMain env nc ic).frames.filter (fun fr => fr.mkdirCalled)).length ≤ 1 ∧
    (∀ fr ∈ (processMain env nc ic).frames,
      fr.accepted = false → fr.movedToQuarantine = true) := by
  refine ⟨?_, ?_, ?_⟩
  · intro i hi
    exact processFrames_mkdir_getD (mainCtx env nc ic) (mainFiles env nc ic)
      env.failed_donuts_exists i hi
  · exact processFrames_mkdir_count (mainCtx env nc ic) env.failed_donuts_exists
      (mainFiles env nc ic)
  · intro fr hfr hacc
    have h2 : fr ∈ processFrames (mainCtx env nc ic) env.failed_donuts_exists
        (mainFiles env nc ic) := hfr
    obtain ⟨fd2, f, _, he⟩ := mem_processFrames h2
    subst he
    rw [processFrame_moved, hacc]
    rfl

/-- C8 witness: in `runA` (quarantine absent at start), the rejected
second frame triggers the single `mkdir` and is relocated. -/
theorem C8_quarantine_witness :
    (((processMain envA ncW icW).frames.getD 1 default).mkdirCalled
      = (!((processMain envA ncW icW).frames.getD 1 default).accepted
          && !envA.failed_donuts_exists
          && (((processMain envA ncW icW).frames.take 1).all FrameResult.accepted))) ∧
    ((processMain envA ncW icW).frames.filter (fun fr => fr.mkdirCalled)).length ≤ 1 ∧
    frRval.movedToQuarantine = true :=
  ⟨(C8_quarantine envA ncW icW).1 1
      (by rw [show (processMain envA ncW icW).frames = [frAval, frRval]
          from runA_frames_eq]; norm_num),
    (C8_quarantine envA ncW icW).2.1,
    (C8_quarantine envA ncW icW).2.2 frRval runA_mem_frRval rfl⟩

/-- C9: toggling the night configuration's ds9 flag changes neither the
aperture set nor any display-independent frame outcome: the filenames,
shifts, accept/reject decisions, and the data, shift, aperture and
timestamp arguments of every photometry invocation coincide. -/
theorem C9_ds9_noninterference (env : Env) (nc : NightConfig) (ic : InstConfig)
    (b : Bool) :
    (processMain env { nc with ds9 := b } ic).ap_x = (processMain env nc ic).ap_x ∧
    (processMain env { nc with ds9 := b } ic).ap_y = (processMain env nc ic).ap_y ∧
    (processMain env { nc with ds9 := b } ic).ap_rsi = (processMain env nc ic).ap_rsi ∧
    (processMain env { nc with ds9 := b } ic).ap_rso = (processMain env nc ic).ap_rso ∧
    (processMain env { nc with ds9 := b } ic).frames.map coreView
      = (processMain env nc ic).frames.map coreView := by
  refine ⟨rfl, rfl, rfl, rfl, ?_⟩
  exact processFrames_core (mainCtx env { nc with ds9 := b } ic) (mainCtx env nc ic)
    rfl rfl rfl rfl rfl rfl rfl rfl rfl rfl rfl rfl rfl rfl
    env.failed_donuts_exists (mainFiles env nc ic)

end ProcessLeowasp
